import Mathlib

/-!
Verification of the Model abstraction of the charm framework (the `op.model`
module) against its specification.  The module under verification is exercised
by `test/test_model.py`; its operations — relation data views, relation lookup,
the hook-tool backend protocol, leadership caching and the status variants —
are embedded below as executable Lean definitions and the specified properties
are proved about them.
-/

namespace OpModel

/-- Python-like values that charm code may attempt to store in relation data.
Relation data entries must be strings; the other variants model the non-string
values rejected by the write path (`None`, integers, booleans, dicts). -/
inductive PyValue
  | str (s : String)
  | int (n : Int)
  | bool (b : Bool)
  | pyNone
  | dict (entries : List (String × String))
deriving DecidableEq, Repr

/-- Whether a Python value is of string type. -/
def PyValue.isStr : PyValue → Bool
  | .str _ => true
  | _ => false

/-- Error taxonomy of the model layer: `modelError` (generic backend failure
carrying the stderr text), `relationNotFound` (relation id unknown to the
backend), `relationDataError` (local permission or type violation on relation
data), `tooManyRelatedApps` (several relation instances bound to a
single-application endpoint), `keyError` (plain mapping miss), and
`valueError` (an arbitrary exception raised inside a backend operation, as the
fake backend of the tests does for relation id 5). -/
inductive ModelErr
  | modelError (stderr : String)
  | relationNotFound
  | relationDataError
  | tooManyRelatedApps
  | keyError
  | valueError
deriving DecidableEq, Repr

/-- Result of an operation that either succeeds without a value or signals a
model error. -/
inductive Res
  | ok
  | err (e : ModelErr)
deriving DecidableEq, Repr

/-- Lookup in an association list representing a string-to-string mapping. -/
def alistGet (l : List (String × String)) (k : String) : Option String :=
  (l.find? (fun p => p.1 == k)).map Prod.snd

/-- Update of an association list: replace the first entry for the key, or
append a fresh entry, matching insertion-ordered dict semantics. -/
def alistSet : List (String × String) → String → String → List (String × String)
  | [], k, v => [(k, v)]
  | (a, b) :: t, k, v => if a = k then (k, v) :: t else (a, b) :: alistSet t k v

/-- Removal of a key from an association list. -/
def alistDel (l : List (String × String)) (k : String) : List (String × String) :=
  l.filter (fun p => p.1 ≠ k)

/-- Participant of a relation from the point of view of the running unit:
the local unit itself, the local application, or a remote unit or remote
application named by the backend. -/
inductive Participant
  | localUnit
  | localApp
  | remoteUnit (name : String)
  | remoteApp (name : String)
deriving DecidableEq, Repr

/-- Modelled from the spec: the write-permission predicate of
`RelationDataContent` in the missing `op/model.py` — a participant is "ours"
for writing when it is the local unit (always) or the local application while
the local unit currently holds leadership; the leadership flag is the one
obtained freshly at write time by the caller. -/
def Participant.isOurs : Participant → Bool → Bool
  | .localUnit, _ => true
  | .localApp, freshIsLeader => freshIsLeader
  | .remoteUnit _, _ => false
  | .remoteApp _, _ => false

/-- Whether a write through this participant is application-scoped, i.e. the
backend `relation-set` call carries `--app=True`. -/
def Participant.isApp : Participant → Bool
  | .localApp => true
  | .remoteApp _ => true
  | .localUnit => false
  | .remoteUnit _ => false

/-- One `relation-set` invocation received by the backend, as recorded by the
fake backend of the tests: relation id, key, value and the app-scope flag. -/
structure SetCall where
  relId : Int
  key : String
  value : String
  isApp : Bool
deriving DecidableEq, Repr

/-- Relation data view for one (relation, participant) pair: `loaded = none`
means the view has not yet fetched its data; `loaded = some m` is the
in-memory copy served for the rest of the invocation. -/
structure RelationDataContent where
  loaded : Option (List (String × String))
deriving DecidableEq, Repr

/-- Modelled from the spec: lazy loading of a relation data view in the
missing `op/model.py` — the first access of any kind fetches the full mapping
from the backend (one fetch call), after which the in-memory copy is used.
Returns the mapping, the view after the access, and the number of backend
fetch calls issued (0 or 1). -/
def dataLoad (fetch : List (String × String)) (d : RelationDataContent) :
    List (String × String) × RelationDataContent × Nat :=
  match d.loaded with
  | some m => (m, d, 0)
  | none => (fetch, ⟨some fetch⟩, 1)

/-- Modelled from the spec: reading one key from a relation data view of the
missing `op/model.py`; loads lazily, then serves the in-memory mapping. -/
def dataGetKey (fetch : List (String × String)) (d : RelationDataContent)
    (k : String) : Option String × RelationDataContent × Nat :=
  match dataLoad fetch d with
  | (m, d2, n) => (alistGet m k, d2, n)

/-- Outcome of a relation data write: the result, the view afterwards, the
`relation-set` calls the backend received, and the fetch calls issued. -/
structure WriteResult where
  result : Res
  data : RelationDataContent
  setCalls : List SetCall
  fetchCalls : Nat
deriving DecidableEq, Repr

/-- Modelled from the spec: `RelationDataContent` key assignment of the
missing `op/model.py`.  Permission is checked first against the leadership
flag obtained freshly at write time; a participant that is not "ours" signals
`RelationDataError` before any backend call.  The value must be a string;
a non-string value signals `RelationDataError` before any backend call and
before mutating the cache.  Otherwise the backend `relation-set` is invoked
and, on success, the in-memory mapping is updated write-through; a backend
failure propagates unchanged and leaves the cached mapping as it was. -/
def dataSetItem (p : Participant) (freshIsLeader : Bool) (relId : Int)
    (backendSet : SetCall → Res) (fetch : List (String × String))
    (d : RelationDataContent) (k : String) (v : PyValue) : WriteResult :=
  if ¬ p.isOurs freshIsLeader then
    ⟨.err .relationDataError, d, [], 0⟩
  else
    match v with
    | .str s =>
      match dataLoad fetch d with
      | (m, d2, nf) =>
        let call : SetCall := ⟨relId, k, s, p.isApp⟩
        match backendSet call with
        | .ok => ⟨.ok, ⟨some (alistSet m k s)⟩, [call], nf⟩
        | .err e => ⟨.err e, d2, [call], nf⟩
    | _ => ⟨.err .relationDataError, d, [], 0⟩

/-- Modelled from the spec: `RelationDataContent` key deletion of the missing
`op/model.py` — expressed as writing an empty-string value, with the same
permission check; on success the key is dropped from the in-memory mapping,
and a backend failure propagates leaving the cached mapping unchanged. -/
def dataDelItem (p : Participant) (freshIsLeader : Bool) (relId : Int)
    (backendSet : SetCall → Res) (fetch : List (String × String))
    (d : RelationDataContent) (k : String) : WriteResult :=
  if ¬ p.isOurs freshIsLeader then
    ⟨.err .relationDataError, d, [], 0⟩
  else
    match dataLoad fetch d with
    | (m, d2, nf) =>
      let call : SetCall := ⟨relId, k, "", p.isApp⟩
      match backendSet call with
      | .ok => ⟨.ok, ⟨some (alistDel m k)⟩, [call], nf⟩
      | .err e => ⟨.err e, d2, [call], nf⟩

/-- Outcome of a backend or model operation that either yields a value or
signals a model error. -/
inductive ToolOutcome (α : Type)
  | success (v : α)
  | failure (e : ModelErr)
deriving DecidableEq, Repr

/-- Entity used to index a relation data mapping: a unit or an application,
identified by name. -/
inductive Entity
  | unit (name : String)
  | app (name : String)
deriving DecidableEq, Repr

/-- Characters before the first slash of a character list. -/
def takeUntilSlash : List Char → List Char
  | [] => []
  | c :: t => if c = '/' then [] else c :: takeUntilSlash t

/-- Application name of a unit, obtained by splitting the unit name at the
slash, as in `myapp/0` belonging to `myapp`. -/
def unitAppName (unitName : String) : String :=
  ⟨takeUntilSlash unitName.toList⟩

/-- Relation instance: endpoint name, relation id, ordered remote unit names,
and whether it is a "dead" relation (an id not currently live). -/
structure Relation where
  relName : String
  relId : Int
  remoteUnitNames : List String
  isDead : Bool
deriving DecidableEq, Repr

/-- Remote application of a relation — the application of its first remote
unit; a dead relation has none. -/
def Relation.remoteAppName (r : Relation) : Option String :=
  r.remoteUnitNames.head?.map unitAppName

/-- Modelled from the spec: the participants keyed by a relation data mapping
in the missing `op/model.py` — the local unit, the local application, each
remote unit, and the remote application when one exists.  A dead relation
keys only the local unit and local application. -/
def relationDataKeys (localUnitName localAppName : String) (r : Relation) :
    List Entity :=
  [Entity.unit localUnitName, Entity.app localAppName]
    ++ r.remoteUnitNames.map Entity.unit
    ++ (match r.remoteAppName with
        | some a => [Entity.app a]
        | none => [])

/-- Modelled from the spec: the relation data mapping of the missing
`op/model.py`, built at relation construction with one data view per
participant; views of a dead relation are pre-loaded empty, others are
unloaded and fetch lazily. -/
def relationData (localUnitName localAppName : String) (r : Relation) :
    List (Entity × RelationDataContent) :=
  (relationDataKeys localUnitName localAppName r).map
    (fun e => (e, ⟨if r.isDead then some [] else none⟩))

/-- Modelled from the spec: indexing the relation data mapping of the missing
`op/model.py` with an entity — a plain mapping lookup, issuing no backend
call; an entity that is not a participant is a mapping miss (`KeyError`). -/
def relationDataIndex (localUnitName localAppName : String) (r : Relation)
    (e : Entity) : Option RelationDataContent :=
  ((relationData localUnitName localAppName r).find?
    (fun p => decide (p.1 = e))).map Prod.snd

/-- Modelled from the spec: a live Relation as constructed by the missing
`op/model.py` from the backend `relation-list` result for a live id. -/
def mkLiveRelation (name : String) (id : Int) (remoteUnits : List String) :
    Relation :=
  ⟨name, id, remoteUnits, false⟩

/-- Modelled from the spec: the "dead" Relation synthesized by the missing
`op/model.py` for an id that is not currently live — no remote units, empty
pre-loaded local data. -/
def mkDeadRelation (name : String) (id : Int) : Relation :=
  ⟨name, id, [], true⟩

/-- Modelled from the spec: `Model.get_relation` of the missing
`op/model.py`.  An endpoint name not declared in the charm metadata is an
error.  With no id: zero ids bound to the endpoint yields `none`, exactly one
yields that Relation, more than one signals `TooManyRelatedApps`.  With an
id: a live id yields the live Relation, an id not among the live ids yields a
dead Relation instead of failing. -/
def getRelation (meta : List String) (relationIds : String → List Int)
    (relationList : Int → List String) (name : String) (relId : Option Int) :
    ToolOutcome (Option Relation) :=
  if name ∉ meta then
    .failure (.modelError "unknown endpoint")
  else
    match relId with
    | none =>
      match relationIds name with
      | [] => .success none
      | [i] => .success (some (mkLiveRelation name i (relationList i)))
      | _ => .failure .tooManyRelatedApps
    | some i =>
      if i ∈ relationIds name then
        .success (some (mkLiveRelation name i (relationList i)))
      else
        .success (some (mkDeadRelation name i))

/-- Captured result of one hook-tool subprocess: exit code, stdout, stderr. -/
structure ToolResult where
  exitCode : Nat
  stdout : String
  stderr : String
deriving DecidableEq, Repr

/-- Whether one character list occurs as a contiguous sublist of another. -/
def hasSubList (hay needle : List Char) : Bool :=
  if needle.isPrefixOf hay then true
  else
    match hay with
    | [] => false
    | _ :: t => hasSubList t needle

/-- Whether a stderr text matches the orchestrator error for a relation id
unknown to it, by containing the text "relation not found". -/
def relationNotFoundMsg (stderr : String) : Bool :=
  hasSubList stderr.toList "relation not found".toList

/-- Modelled from the spec: hook-tool result classification of the missing
`op/model.py` backend.  Exit code 0 yields the stdout (to be parsed as JSON
by the caller); a non-zero exit with a "relation not found" stderr signals
`RelationNotFoundError`; any other non-zero exit signals `ModelError`
carrying the stderr text. -/
def classifyToolResult (r : ToolResult) : ToolOutcome String :=
  if r.exitCode = 0 then
    .success r.stdout
  else if relationNotFoundMsg r.stderr then
    .failure .relationNotFound
  else
    .failure (.modelError r.stderr)

/-- Renewal period of the leadership cache, in seconds of monotonic time. -/
def LEASE_RENEWAL_PERIOD : Nat := 30

/-- Leadership cache of the backend: the boolean obtained at the last
successful check and the monotonic time of that check.  Setting the time to 0
is the explicit invalidation used to force a re-check. -/
structure LeaderState where
  isLeader : Bool
  checkTime : Nat
deriving DecidableEq, Repr

/-- Modelled from the spec: `is_leader` caching of the missing `op/model.py`
backend.  A query within the renewal window of the last check returns the
cached boolean without invoking the tool; once the window has elapsed the
query invokes the tool once and records the new value and time.  Returns the
boolean, the cache afterwards, and the number of backend calls (0 or 1). -/
def isLeaderCheck (backendIsLeader : Bool) (now : Nat) (st : LeaderState) :
    Bool × LeaderState × Nat :=
  if now - st.checkTime < LEASE_RENEWAL_PERIOD then
    (st.isLeader, st, 0)
  else
    (backendIsLeader, ⟨backendIsLeader, now⟩, 1)

/-- Sequence of `is_leader` queries at the given monotonic times, threading
the cache and counting the backend calls issued. -/
def runLeaderQueries (backendIsLeader : Bool) (times : List Nat)
    (st : LeaderState) : LeaderState × Nat :=
  match times with
  | [] => (st, 0)
  | t :: ts =>
    match isLeaderCheck backendIsLeader t st with
    | (_, st2, n) =>
      match runLeaderQueries backendIsLeader ts st2 with
      | (st3, m) => (st3, n + m)

/-- Modelled from the spec: the closed set of status kinds of the missing
`op/model.py` — Unknown, Active, Maintenance, Blocked, Waiting.  The base
status cannot be instantiated: every status is one of these five concrete
kinds.  Maintenance, Blocked and Waiting carry a required message; Unknown
and Active take no message argument. -/
inductive StatusBase
  | unknownStatus
  | activeStatus
  | maintenanceStatus (message : String)
  | blockedStatus (message : String)
  | waitingStatus (message : String)
deriving DecidableEq, Repr

/-- Message carried by a status; empty by default for Unknown and Active. -/
def StatusBase.message : StatusBase → String
  | .unknownStatus => ""
  | .activeStatus => ""
  | .maintenanceStatus m => m
  | .blockedStatus m => m
  | .waitingStatus m => m

/-- Name of a status kind as passed to the `status-set` tool. -/
def StatusBase.statusName : StatusBase → String
  | .unknownStatus => "unknown"
  | .activeStatus => "active"
  | .maintenanceStatus _ => "maintenance"
  | .blockedStatus _ => "blocked"
  | .waitingStatus _ => "waiting"

/-- Relation ids per endpoint of the fake backend in
`test/test_model.py` (`FakeModelBackend.relation_ids`). -/
def fakeRelationIds : String → List Int
  | "db0" => []
  | "db1" => [4]
  | "db2" => [5, 6]
  | _ => []

/-- Remote unit names per relation id of the fake backend in
`test/test_model.py` (`FakeModelBackend.relation_list`). -/
def fakeRelationList : Int → List String
  | 4 => ["remoteapp1/0"]
  | 5 => ["remoteapp1/0"]
  | 6 => ["remoteapp2/0"]
  | _ => []

/-- Endpoint names declared in the charm metadata of the tests. -/
def fakeMeta : List String := ["db0", "db1", "db2"]

/-- Behaviour of `FakeModelBackend.relation_set` in `test/test_model.py`:
relation id 5 raises `ValueError`, any other id succeeds. -/
def fakeRelationSet (c : SetCall) : Res :=
  if c.relId = 5 then .err .valueError else .ok

section Theorems

/-- Auxiliary: updating a key in an association list makes a subsequent
lookup of that key return the new value. -/
theorem alistGet_alistSet (m : List (String × String)) (k s : String) :
    alistGet (alistSet m k s) k = some s := by
  induction m with
  | nil => simp [alistGet, alistSet]
  | cons hd t ih =>
    obtain ⟨a, b⟩ := hd
    by_cases hak : a = k
    · simp [alistSet, hak, alistGet]
    · simpa [alistSet, hak, alistGet, List.find?] using ih

/-- C1: a relation data write through a participant that is not "ours" — a
remote unit, a remote application, or the local application while the
leadership flag obtained freshly at write time is false — signals
`RelationDataError` and the backend receives no `relation-set` call; the same
holds for a deletion; and the local-application write with the write-time
leadership flag true does go through to the backend, showing the condition is
decided by the flag at write time. -/
theorem relation_data_write_requires_ours
    (p : Participant) (freshIsLeader : Bool) (relId : Int)
    (backendSet : SetCall → Res) (fetch : List (String × String))
    (d : RelationDataContent) (k : String) (v : PyValue)
    (h : p.isOurs freshIsLeader = false) :
    (dataSetItem p freshIsLeader relId backendSet fetch d k v).result
        = .err .relationDataError ∧
    (dataSetItem p freshIsLeader relId backendSet fetch d k v).setCalls = [] ∧
    (dataDelItem p freshIsLeader relId backendSet fetch d k).result
        = .err .relationDataError ∧
    (dataDelItem p freshIsLeader relId backendSet fetch d k).setCalls = [] ∧
    (∀ s, backendSet ⟨relId, k, s, true⟩ = .ok →
      (dataSetItem .localApp true relId backendSet fetch d k (.str s)).result
        = .ok) := by
  refine ⟨?_, ?_, ?_, ?_, ?_⟩
  · simp [dataSetItem, h]
  · simp [dataSetItem, h]
  · simp [dataDelItem, h]
  · simp [dataDelItem, h]
  · intro s hs
    obtain ⟨lo⟩ := d
    cases lo <;>
      simp [dataSetItem, Participant.isOurs, Participant.isApp, dataLoad, hs]

/-- Witness for C1 at the scenarios of the tests: a write through the remote
unit `remoteapp1/0` and a local-application write while not leader. -/
theorem relation_data_write_requires_ours_witness :
    ((dataSetItem (.remoteUnit "remoteapp1/0") true 4 (fun _ => .ok)
        [] ⟨some [("host", "remoteapp1-0")]⟩ "foo" (.str "bar")).result
      = .err .relationDataError ∧
     (dataSetItem (.remoteUnit "remoteapp1/0") true 4 (fun _ => .ok)
        [] ⟨some [("host", "remoteapp1-0")]⟩ "foo" (.str "bar")).setCalls
      = []) ∧
    ((dataSetItem .localApp false 4 (fun _ => .ok)
        [] ⟨some [("password", "deadbeefcafe")]⟩ "password"
        (.str "foobar")).result = .err .relationDataError ∧
     (dataSetItem .localApp false 4 (fun _ => .ok)
        [] ⟨some [("password", "deadbeefcafe")]⟩ "password"
        (.str "foobar")).setCalls = []) := by
  have h1 := relation_data_write_requires_ours (.remoteUnit "remoteapp1/0")
    true 4 (fun _ => .ok) [] ⟨some [("host", "remoteapp1-0")]⟩ "foo"
    (.str "bar") (by decide)
  have h2 := relation_data_write_requires_ours .localApp
    false 4 (fun _ => .ok) [] ⟨some [("password", "deadbeefcafe")]⟩
    "password" (.str "foobar") (by decide)
  exact ⟨⟨h1.1, h1.2.1⟩, ⟨h2.1, h2.2.1⟩⟩

/-- C2: a relation data write whose value is not a string — `None`, an
integer, a dict — signals `RelationDataError`, the backend receives zero
`relation-set` calls, and the cached mapping is left unchanged. -/
theorem relation_data_write_non_string
    (p : Participant) (freshIsLeader : Bool) (relId : Int)
    (backendSet : SetCall → Res) (fetch : List (String × String))
    (d : RelationDataContent) (k : String) (v : PyValue)
    (h : v.isStr = false) :
    (dataSetItem p freshIsLeader relId backendSet fetch d k v).result
        = .err .relationDataError ∧
    (dataSetItem p freshIsLeader relId backendSet fetch d k v).setCalls = [] ∧
    (dataSetItem p freshIsLeader relId backendSet fetch d k v).data = d := by
  cases v <;> by_cases hp : p.isOurs freshIsLeader <;>
    simp_all [dataSetItem, PyValue.isStr]

/-- Witness for C2 at the inputs of `test_relation_data_type_check`: writing
the integer 1, the dict containing foo to bar, and `None` through the local
unit. -/
theorem relation_data_write_non_string_witness :
    ((dataSetItem .localUnit true 4 (fun _ => .ok) []
        ⟨some [("host", "myapp-0")]⟩ "foo" (.int 1)).result
      = .err .relationDataError ∧
     (dataSetItem .localUnit true 4 (fun _ => .ok) []
        ⟨some [("host", "myapp-0")]⟩ "foo" (.int 1)).setCalls = []) ∧
    ((dataSetItem .localUnit true 4 (fun _ => .ok) []
        ⟨some [("host", "myapp-0")]⟩ "foo"
        (.dict [("foo", "bar")])).result = .err .relationDataError) ∧
    ((dataSetItem .localUnit true 4 (fun _ => .ok) []
        ⟨some [("host", "myapp-0")]⟩ "foo" .pyNone).result
      = .err .relationDataError ∧
     (dataSetItem .localUnit true 4 (fun _ => .ok) []
        ⟨some [("host", "myapp-0")]⟩ "foo" .pyNone).data
      = ⟨some [("host", "myapp-0")]⟩) := by
  have h1 := relation_data_write_non_string .localUnit true 4 (fun _ => .ok)
    [] ⟨some [("host", "myapp-0")]⟩ "foo" (.int 1) (by decide)
  have h2 := relation_data_write_non_string .localUnit true 4 (fun _ => .ok)
    [] ⟨some [("host", "myapp-0")]⟩ "foo" (.dict [("foo", "bar")]) (by decide)
  have h3 := relation_data_write_non_string .localUnit true 4 (fun _ => .ok)
    [] ⟨some [("host", "myapp-0")]⟩ "foo" .pyNone (by decide)
  exact ⟨⟨h1.1, h1.2.1⟩, h2.1, ⟨h3.1, h3.2.2⟩⟩

/-- C5: after a successful local-unit write of key k to string value v, the
write issued exactly the one expected `relation-set` call, and reading k from
the same view returns v with zero additional fetch calls — the cache was
updated write-through. -/
theorem relation_data_write_roundtrip
    (freshIsLeader : Bool) (relId : Int) (backendSet : SetCall → Res)
    (fetch m : List (String × String)) (k s : String)
    (hok : backendSet ⟨relId, k, s, false⟩ = .ok) :
    (dataSetItem .localUnit freshIsLeader relId backendSet fetch
        ⟨some m⟩ k (.str s)).result = .ok ∧
    (dataSetItem .localUnit freshIsLeader relId backendSet fetch
        ⟨some m⟩ k (.str s)).setCalls = [⟨relId, k, s, false⟩] ∧
    dataGetKey fetch
      (dataSetItem .localUnit freshIsLeader relId backendSet fetch
        ⟨some m⟩ k (.str s)).data k
      = (some s, ⟨some (alistSet m k s)⟩, 0) := by
  refine ⟨?_, ?_, ?_⟩ <;>
    simp [dataSetItem, dataLoad, Participant.isOurs, Participant.isApp, hok,
      dataGetKey, alistGet_alistSet]

/-- Witness for C5 at the scenario of `test_relation_data_modify_our`:
writing host to bar on relation 4 and reading it back. -/
theorem relation_data_write_roundtrip_witness :
    (dataSetItem .localUnit true 4 (fun _ => .ok) []
        ⟨some [("host", "myapp-0")]⟩ "host" (.str "bar")).result = .ok ∧
    (dataSetItem .localUnit true 4 (fun _ => .ok) []
        ⟨some [("host", "myapp-0")]⟩ "host" (.str "bar")).setCalls
      = [⟨4, "host", "bar", false⟩] ∧
    dataGetKey []
      (dataSetItem .localUnit true 4 (fun _ => .ok) []
        ⟨some [("host", "myapp-0")]⟩ "host" (.str "bar")).data "host"
      = (some "bar", ⟨some [("host", "bar")]⟩, 0) := by
  have h := relation_data_write_roundtrip true 4 (fun _ => .ok) []
    [("host", "myapp-0")] "host" "bar" (by decide)
  refine ⟨h.1, h.2.1, ?_⟩
  have h3 := h.2.2
  simpa [alistSet] using h3

/-- C9: when the backend `relation-set` raises during an assignment or a
deletion on an already loaded local-unit view, the exception propagates
unchanged and the cached mapping is exactly what it was before the attempt —
the assigned value is not visible and a deleted key is still present. -/
theorem relation_set_fail_atomicity
    (freshIsLeader : Bool) (relId : Int) (backendSet : SetCall → Res)
    (fetch m : List (String × String)) (k s : String) (e e2 : ModelErr)
    (hset : backendSet ⟨relId, k, s, false⟩ = .err e)
    (hdel : backendSet ⟨relId, k, "", false⟩ = .err e2) :
    ((dataSetItem .localUnit freshIsLeader relId backendSet fetch
        ⟨some m⟩ k (.str s)).result = .err e ∧
     (dataSetItem .localUnit freshIsLeader relId backendSet fetch
        ⟨some m⟩ k (.str s)).data = ⟨some m⟩) ∧
    ((dataDelItem .localUnit freshIsLeader relId backendSet fetch
        ⟨some m⟩ k).result = .err e2 ∧
     (dataDelItem .localUnit freshIsLeader relId backendSet fetch
        ⟨some m⟩ k).data = ⟨some m⟩) := by
  refine ⟨⟨?_, ?_⟩, ⟨?_, ?_⟩⟩ <;>
    simp [dataSetItem, dataDelItem, dataLoad, Participant.isOurs,
      Participant.isApp, hset, hdel]

/-- Witness for C9 at the scenario of `test_relation_set_fail`: the fake
backend raises `ValueError` on relation id 5, and the host key keeps its
original value and is not deleted. -/
theorem relation_set_fail_atomicity_witness :
    ((dataSetItem .localUnit true 5 fakeRelationSet []
        ⟨some [("host", "myapp-0")]⟩ "host" (.str "bar")).result
      = .err .valueError ∧
     (dataSetItem .localUnit true 5 fakeRelationSet []
        ⟨some [("host", "myapp-0")]⟩ "host" (.str "bar")).data
      = ⟨some [("host", "myapp-0")]⟩) ∧
    ((dataDelItem .localUnit true 5 fakeRelationSet []
        ⟨some [("host", "myapp-0")]⟩ "host").result = .err .valueError ∧
     (dataDelItem .localUnit true 5 fakeRelationSet []
        ⟨some [("host", "myapp-0")]⟩ "host").data
      = ⟨some [("host", "myapp-0")]⟩) :=
  relation_set_fail_atomicity true 5 fakeRelationSet []
    [("host", "myapp-0")] "host" "bar" .valueError .valueError
    (by decide) (by decide)

/-- C3: for a declared endpoint name, `get_relation` with no id returns
`none` when zero ids are bound, the unique live Relation when exactly one id
is bound, and signals `TooManyRelatedApps` when more than one id is bound. -/
theorem get_relation_no_id
    (meta : List String) (relationIds : String → List Int)
    (relationList : Int → List String) (name : String)
    (hmeta : name ∈ meta) :
    (relationIds name = [] →
      getRelation meta relationIds relationList name none = .success none) ∧
    (∀ i, relationIds name = [i] →
      getRelation meta relationIds relationList name none
        = .success (some (mkLiveRelation name i (relationList i)))) ∧
    (2 ≤ (relationIds name).length →
      getRelation meta relationIds relationList name none
        = .failure .tooManyRelatedApps) := by
  refine ⟨fun h0 => ?_, fun i h1 => ?_, fun h2 => ?_⟩
  · simp [getRelation, hmeta, h0]
  · simp [getRelation, hmeta, h1]
  · match hl : relationIds name with
    | [] => rw [hl] at h2; simp at h2
    | [i] => rw [hl] at h2; simp at h2
    | a :: b :: t => simp [getRelation, hmeta, hl]

/-- Witness for C3 on the fake backend of the tests: db0 has zero bound ids,
db1 exactly one, db2 two. -/
theorem get_relation_no_id_witness :
    getRelation fakeMeta fakeRelationIds fakeRelationList "db0" none
      = .success none ∧
    getRelation fakeMeta fakeRelationIds fakeRelationList "db1" none
      = .success (some (mkLiveRelation "db1" 4 ["remoteapp1/0"])) ∧
    getRelation fakeMeta fakeRelationIds fakeRelationList "db2" none
      = .failure .tooManyRelatedApps := by
  refine ⟨?_, ?_, ?_⟩
  · exact (get_relation_no_id fakeMeta fakeRelationIds fakeRelationList
      "db0" (by decide)).1 (by decide)
  · have h := (get_relation_no_id fakeMeta fakeRelationIds fakeRelationList
      "db1" (by decide)).2.1 4 (by decide)
    simpa [fakeRelationList] using h
  · exact (get_relation_no_id fakeMeta fakeRelationIds fakeRelationList
      "db2" (by decide)).2.2 (by decide)

/-- C4: for a declared endpoint name and an id not among the live ids,
`get_relation` does not fail: it returns the dead Relation, whose remote unit
list is empty and whose data view for the local unit is the pre-loaded empty
mapping, so that reading any key yields absence with zero fetch calls. -/
theorem get_relation_dead_id
    (meta : List String) (relationIds : String → List Int)
    (relationList : Int → List String) (name : String) (i : Int)
    (localU localA : String)
    (hmeta : name ∈ meta) (hdead : i ∉ relationIds name) :
    getRelation meta relationIds relationList name (some i)
      = .success (some (mkDeadRelation name i)) ∧
    (mkDeadRelation name i).remoteUnitNames = [] ∧
    relationDataIndex localU localA (mkDeadRelation name i) (.unit localU)
      = some ⟨some []⟩ ∧
    (∀ fetch k, dataGetKey fetch ⟨some []⟩ k = (none, ⟨some []⟩, 0)) := by
  refine ⟨?_, rfl, ?_, fun fetch k => ?_⟩
  · simp [getRelation, hmeta, hdead]
  · simp [relationDataIndex, relationData, relationDataKeys, mkDeadRelation,
      Relation.remoteAppName]
  · simp [dataGetKey, dataLoad, alistGet]

/-- Witness for C4 at the scenario of `test_get_relation`: id 7 is not live
for db1 on the fake backend. -/
theorem get_relation_dead_id_witness :
    getRelation fakeMeta fakeRelationIds fakeRelationList "db1" (some 7)
      = .success (some (mkDeadRelation "db1" 7)) ∧
    (mkDeadRelation "db1" 7).remoteUnitNames = [] ∧
    relationDataIndex "myapp/0" "myapp" (mkDeadRelation "db1" 7)
      (.unit "myapp/0") = some ⟨some []⟩ ∧
    dataGetKey [] ⟨some []⟩ "host" = (none, ⟨some []⟩, 0) := by
  have h := get_relation_dead_id fakeMeta fakeRelationIds fakeRelationList
    "db1" 7 "myapp/0" "myapp" (by decide) (by decide)
  exact ⟨h.1, h.2.1, h.2.2.1, h.2.2.2 [] "host"⟩

/-- C6: a hook-tool invocation exiting non-zero with a stderr matching the
orchestrator "relation not found" text yields `RelationNotFoundError`; any
other non-zero exit yields `ModelError` carrying the stderr text; exit code 0
yields the stdout for JSON parsing. -/
theorem tool_error_classification (r : ToolResult) :
    (r.exitCode = 0 → classifyToolResult r = .success r.stdout) ∧
    (r.exitCode ≠ 0 → relationNotFoundMsg r.stderr = true →
      classifyToolResult r = .failure .relationNotFound) ∧
    (r.exitCode ≠ 0 → relationNotFoundMsg r.stderr = false →
      classifyToolResult r = .failure (.modelError r.stderr)) := by
  refine ⟨fun h0 => ?_, fun h hm => ?_, fun h hm => ?_⟩ <;>
    simp [classifyToolResult, *]

/-- Witness for C6 at the stderr texts of `test_relation_tool_errors`. -/
theorem tool_error_classification_witness :
    classifyToolResult
      ⟨2, "", "ERROR invalid value \x223\x22 for option -r: relation not found"⟩
      = .failure .relationNotFound ∧
    classifyToolResult ⟨1, "", "fooerror"⟩
      = .failure (.modelError "fooerror") ∧
    classifyToolResult ⟨0, "[\x22remoteapp1/0\x22]", ""⟩
      = .success "[\x22remoteapp1/0\x22]" := by
  refine ⟨?_, ?_, ?_⟩
  · exact (tool_error_classification
      ⟨2, "", "ERROR invalid value \x223\x22 for option -r: relation not found"⟩).2.1
      (by decide) (by decide)
  · exact (tool_error_classification ⟨1, "", "fooerror"⟩).2.2
      (by decide) (by decide)
  · exact (tool_error_classification ⟨0, "[\x22remoteapp1/0\x22]", ""⟩).1 rfl

/-- Auxiliary: a sequence of leadership queries all falling within the
renewal window of the last check leaves the cache untouched and issues zero
backend calls. -/
theorem runLeaderQueries_cached (b v : Bool) (T : Nat) :
    ∀ ts : List Nat, (∀ t ∈ ts, t - T < LEASE_RENEWAL_PERIOD) →
      runLeaderQueries b ts ⟨v, T⟩ = (⟨v, T⟩, 0) := by
  intro ts
  induction ts with
  | nil => intro _; rfl
  | cons t ts ih =>
    intro hin
    have h1 : t - T < LEASE_RENEWAL_PERIOD := hin t (List.mem_cons_self t ts)
    have h2 := ih (fun x hx => hin x (List.mem_cons_of_mem t hx))
    simp [runLeaderQueries, isLeaderCheck, h1, h2]

/-- C7: a leadership value cached at time T with any sequence of queries at
times within the renewal window is served from cache with zero backend calls
and no state change; a query at a time at which the window has elapsed —
including after the timestamp was invalidated to 0 — issues exactly one
backend call and records the fresh value and time. -/
theorem is_leader_cache_window (v b : Bool) (T : Nat) (ts : List Nat)
    (hin : ∀ t ∈ ts, t - T < LEASE_RENEWAL_PERIOD) :
    runLeaderQueries b ts ⟨v, T⟩ = (⟨v, T⟩, 0) ∧
    ∀ t2, LEASE_RENEWAL_PERIOD ≤ t2 - T →
      isLeaderCheck b t2 ⟨v, T⟩ = (b, ⟨b, t2⟩, 1) := by
  refine ⟨runLeaderQueries_cached b v T ts hin, fun t2 ht2 => ?_⟩
  simp [isLeaderCheck, Nat.not_lt.mpr ht2]

/-- Witness for C7: a check at time 100 serves the queries at 100, 110 and
129 from cache; the query at time 130 re-invokes the backend once, as does a
query at time 40 after the timestamp was invalidated to 0. -/
theorem is_leader_cache_window_witness :
    runLeaderQueries true [100, 110, 129] ⟨false, 100⟩ = (⟨false, 100⟩, 0) ∧
    isLeaderCheck true 130 ⟨false, 100⟩ = (true, ⟨true, 130⟩, 1) ∧
    isLeaderCheck true 40 ⟨false, 0⟩ = (true, ⟨true, 40⟩, 1) := by
  refine ⟨?_, ?_, ?_⟩
  · exact (is_leader_cache_window false true 100 [100, 110, 129]
      (by decide)).1
  · exact (is_leader_cache_window false true 100 [] (by simp)).2 130
      (by decide)
  · exact (is_leader_cache_window false true 0 [] (by simp)).2 40 (by decide)

/-- C8: the status kinds form the closed set Unknown, Active, Maintenance,
Blocked, Waiting — every status is one of these five concrete kinds, so the
base status cannot stand on its own; Maintenance, Blocked and Waiting carry
their required message, while Unknown and Active take none and their message
defaults to empty. -/
theorem status_closed_variant_set (s : StatusBase) :
    (s = .unknownStatus ∨ s = .activeStatus
      ∨ (∃ m, s = .maintenanceStatus m)
      ∨ (∃ m, s = .blockedStatus m)
      ∨ (∃ m, s = .waitingStatus m)) ∧
    StatusBase.message .unknownStatus = "" ∧
    StatusBase.message .activeStatus = "" ∧
    (∀ m, (StatusBase.maintenanceStatus m).message = m) ∧
    (∀ m, (StatusBase.blockedStatus m).message = m) ∧
    (∀ m, (StatusBase.waitingStatus m).message = m) := by
  refine ⟨?_, rfl, rfl, fun m => rfl, fun m => rfl, fun m => rfl⟩
  cases s with
  | unknownStatus => exact Or.inl rfl
  | activeStatus => exact Or.inr (Or.inl rfl)
  | maintenanceStatus m => exact Or.inr (Or.inr (Or.inl ⟨m, rfl⟩))
  | blockedStatus m => exact Or.inr (Or.inr (Or.inr (Or.inl ⟨m, rfl⟩)))
  | waitingStatus m => exact Or.inr (Or.inr (Or.inr (Or.inr ⟨m, rfl⟩)))

/-- C10: indexing a relation data mapping with a unit or application that is
not a participant of the relation is a plain mapping miss — it yields no data
view at all (`KeyError`), and in particular constructs nothing that could
fetch from the backend. -/
theorem relation_data_nonparticipant_keyerror
    (localU localA : String) (r : Relation) (e : Entity)
    (h : e ∉ relationDataKeys localU localA r) :
    relationDataIndex localU localA r e = none := by
  unfold relationDataIndex relationData
  rw [List.find?_eq_none.mpr]
  · rfl
  · intro x hx
    simp only [List.mem_map] at hx
    obtain ⟨a, ha, rfl⟩ := hx
    simp only [decide_eq_true_eq]
    intro hEq
    exact h (hEq ▸ ha)

/-- Witness for C10 at the scenarios of `test_unit_relation_data` and
`test_remote_app_relation_data`: the unit `randomunit/0` and the application
randomapp are not participants of the db1 relation. -/
theorem relation_data_nonparticipant_keyerror_witness :
    relationDataIndex "myapp/0" "myapp"
      (mkLiveRelation "db1" 4 ["remoteapp1/0"]) (.unit "randomunit/0")
      = none ∧
    relationDataIndex "myapp/0" "myapp"
      (mkLiveRelation "db1" 4 ["remoteapp1/0"]) (.app "randomapp")
      = none :=
  ⟨relation_data_nonparticipant_keyerror "myapp/0" "myapp"
      (mkLiveRelation "db1" 4 ["remoteapp1/0"]) (.unit "randomunit/0")
      (by decide),
   relation_data_nonparticipant_keyerror "myapp/0" "myapp"
      (mkLiveRelation "db1" 4 ["remoteapp1/0"]) (.app "randomapp")
      (by decide)⟩

end Theorems

end OpModel
